import Mathlib

/-!
Verification of the BUSINESS repository scoring and report tools.

This file shallowly embeds the arithmetic, string-matching and
error-handling logic of the repository in Lean 4 and proves the frozen
claims about it.  Pure Python functions become Lean functions over
`String`, `ℚ`, `ℕ` and association lists; calls to external services
(HTTP, LLM, PDF library) become explicit outcome parameters of type
`Except`/inductive outcomes, exactly mirroring the try/except structure
of the source.  Python `str.lower` is modelled on the ASCII range (the
only range the matched keywords use; CJK characters are unaffected by
lowering in both systems), and `json.loads` is modelled by an executable
recursive-descent acceptor of the JSON grammar implemented by the Python
standard library.
-/

namespace PyStr

/-- ASCII lowering, the fragment of Python `str.lower` exercised by the
repository keyword tables (ASCII letters and CJK text, which lowering
leaves unchanged). -/
def pyLower (s : String) : String :=
  String.mk (s.data.map Char.toLower)

/-- Python whitespace for `str.strip` / `str.rstrip` (ASCII fragment). -/
def isPySpace (c : Char) : Bool :=
  c == ' ' || c == '\t' || c == '\n' || c == '\r' || c == '\x0b' || c == '\x0c'

def stripLeftChars (cs : List Char) : List Char :=
  cs.dropWhile isPySpace

def stripRightChars (cs : List Char) : List Char :=
  (cs.reverse.dropWhile isPySpace).reverse

/-- Python `str.strip()`. -/
def pyStrip (s : String) : String :=
  String.mk (stripRightChars (stripLeftChars s.data))

/-- Python `str.rstrip()`. -/
def pyRstrip (s : String) : String :=
  String.mk (stripRightChars s.data)

/-- Substring occurrence on character lists (Python `needle in hay`). -/
def containsSub : List Char → List Char → Bool
  | _, [] => true
  | [], _ :: _ => false
  | h :: t, n :: m =>
    if List.isPrefixOf (n :: m) (h :: t) then true else containsSub t (n :: m)

/-- Python `needle in hay` on strings. -/
def strContains (hay needle : String) : Bool :=
  containsSub hay.data needle.data

/-- Occurrence of a decimal digit immediately followed by `needle`
(the shape of the regexes `\d+%`, `\d+x`, `\d+ms`, ... used by the
solution analyzer: such a regex matches iff some digit is directly
followed by the literal tail). -/
def digitThen (needle : List Char) : List Char → Bool
  | [] => false
  | c :: t => (c.isDigit && List.isPrefixOf needle t) || digitThen needle t

/-- First index at which `needle` occurs in `hay`, if any. -/
def findSubIdx (hay needle : List Char) : Option ℕ :=
  go hay 0
where
  go : List Char → ℕ → Option ℕ
  | [], i => if needle.isEmpty then some i else none
  | h :: t, i =>
    if List.isPrefixOf needle (h :: t) then some i else go t (i + 1)

/-- Python `str.startswith`. -/
def startsWith (s pre : String) : Bool :=
  List.isPrefixOf pre.data s.data

/-- Python `any(kw in text for kw in kws)`. -/
def anyIn (kws : List String) (text : String) : Bool :=
  kws.any (fun kw => strContains text kw)

end PyStr

namespace PyJson

open PyStr

/-- JSON values as produced by Python `json.loads` (which additionally
accepts `NaN`, `Infinity` and `-Infinity`). -/
inductive JValue where
  | null : JValue
  | bool : Bool → JValue
  | num : ℚ → JValue
  | nan : JValue
  | inf : Bool → JValue
  | str : String → JValue
  | arr : List JValue → JValue
  | obj : List (String × JValue) → JValue

/-- JSON insignificant whitespace. -/
def isJsonWs (c : Char) : Bool :=
  c == ' ' || c == '\t' || c == '\n' || c == '\r'

def skipWs (cs : List Char) : List Char :=
  cs.dropWhile isJsonWs

def hexVal (c : Char) : Option ℕ :=
  if c.isDigit then some (c.toNat - 48)
  else if 97 ≤ c.toNat ∧ c.toNat ≤ 102 then some (c.toNat - 87)
  else if 65 ≤ c.toNat ∧ c.toNat ≤ 70 then some (c.toNat - 55)
  else none

/-- Body of a JSON string after the opening quote, with the strict
escape and control-character rules of the Python decoder. -/
def parseStrBody (acc : List Char) : List Char → Option (String × List Char)
  | [] => none
  | c :: rest =>
    if c == '"' then some (String.mk acc.reverse, rest)
    else if c == '\\' then
      match rest with
      | [] => none
      | e :: rest2 =>
        if e == '"' then parseStrBody ('"' :: acc) rest2
        else if e == '\\' then parseStrBody ('\\' :: acc) rest2
        else if e == '/' then parseStrBody ('/' :: acc) rest2
        else if e == 'b' then parseStrBody ('\x08' :: acc) rest2
        else if e == 'f' then parseStrBody ('\x0c' :: acc) rest2
        else if e == 'n' then parseStrBody ('\n' :: acc) rest2
        else if e == 'r' then parseStrBody ('\r' :: acc) rest2
        else if e == 't' then parseStrBody ('\t' :: acc) rest2
        else if e == 'u' then
          match rest2 with
          | h1 :: h2 :: h3 :: h4 :: rest3 =>
            match hexVal h1, hexVal h2, hexVal h3, hexVal h4 with
            | some x1, some x2, some x3, some x4 =>
              parseStrBody (Char.ofNat (((x1 * 16 + x2) * 16 + x3) * 16 + x4) :: acc) rest3
            | _, _, _, _ => none
          | _ => none
        else none
    else if c.toNat < 32 then none
    else parseStrBody (c :: acc) rest
termination_by cs => cs.length
decreasing_by all_goals simp_wf <;> omega

def natOfDigits (ds : List Char) : ℕ :=
  ds.foldl (fun n c => n * 10 + (c.toNat - 48)) 0

/-- Number token of the Python decoder regex
`(-?(?:0|[1-9]\d*))(\.\d+)?([eE][-+]?\d+)?`, evaluated exactly in `ℚ`. -/
def parseNumber (cs : List Char) : Option (ℚ × List Char) :=
  let (neg, cs1) :=
    match cs with
    | '-' :: t => (true, t)
    | _ => (false, cs)
  match cs1 with
  | [] => none
  | c :: _ =>
    if !c.isDigit then none
    else
      let (intDigits, cs2) :=
        if c == '0' then ([c], cs1.tail)
        else cs1.span Char.isDigit
      let intVal : ℚ := (natOfDigits intDigits : ℕ)
      let (fracVal, cs3) :=
        match cs2 with
        | '.' :: t =>
          let (fds, r) := t.span Char.isDigit
          if fds.isEmpty then ((0 : ℚ), cs2)
          else (((natOfDigits fds : ℕ) : ℚ) / (10 : ℚ) ^ fds.length, r)
        | _ => ((0 : ℚ), cs2)
      let (expOk, expNeg, expDigits, cs4) :=
        match cs3 with
        | e :: t =>
          if e == 'e' || e == 'E' then
            let (esign, t2) :=
              match t with
              | '-' :: u => (true, u)
              | '+' :: u => (false, u)
              | _ => (false, t)
            let (eds, r) := t2.span Char.isDigit
            if eds.isEmpty then (false, false, ([] : List Char), cs3)
            else (true, esign, eds, r)
          else (false, false, ([] : List Char), cs3)
        | _ => (false, false, ([] : List Char), cs3)
      let base : ℚ := intVal + fracVal
      let scaled : ℚ :=
        if !expOk then base
        else if expNeg then base / (10 : ℚ) ^ natOfDigits expDigits
        else base * (10 : ℚ) ^ natOfDigits expDigits
      some (if neg then -scaled else scaled, cs4)

mutual

/-- One JSON value, fuelled recursive descent following the Python
`json` scanner (literals are tried before the number regex). -/
def parseVal : ℕ → List Char → Option (JValue × List Char)
  | 0, _ => none
  | fuel + 1, cs =>
    match cs with
    | [] => none
    | c :: rest =>
      if c == '"' then
        match parseStrBody [] rest with
        | some (s, r) => some (JValue.str s, r)
        | none => none
      else if c == '\x7b' then parseObjBody fuel (skipWs rest) []
      else if c == '[' then parseArrBody fuel (skipWs rest) []
      else if List.isPrefixOf "null".data cs then some (JValue.null, cs.drop 4)
      else if List.isPrefixOf "true".data cs then some (JValue.bool true, cs.drop 4)
      else if List.isPrefixOf "false".data cs then some (JValue.bool false, cs.drop 5)
      else if List.isPrefixOf "NaN".data cs then some (JValue.nan, cs.drop 3)
      else if List.isPrefixOf "Infinity".data cs then some (JValue.inf false, cs.drop 8)
      else if List.isPrefixOf "-Infinity".data cs then some (JValue.inf true, cs.drop 9)
      else
        match parseNumber cs with
        | some (q, r) => some (JValue.num q, r)
        | none => none

/-- Members of an object, after `\x7b` and leading whitespace. -/
def parseObjBody : ℕ → List Char → List (String × JValue) → Option (JValue × List Char)
  | 0, _, _ => none
  | fuel + 1, cs, acc =>
    match cs with
    | '\x7d' :: rest =>
      if acc.isEmpty then some (JValue.obj [], rest) else none
    | '"' :: rest =>
      match parseStrBody [] rest with
      | none => none
      | some (key, r1) =>
        match skipWs r1 with
        | ':' :: r2 =>
          match parseVal fuel (skipWs r2) with
          | none => none
          | some (v, r3) =>
            match skipWs r3 with
            | ',' :: r4 => parseObjBody fuel (skipWs r4) ((key, v) :: acc)
            | '\x7d' :: r4 => some (JValue.obj ((key, v) :: acc).reverse, r4)
            | _ => none
        | _ => none
    | _ => none

/-- Elements of an array, after `[` and leading whitespace. -/
def parseArrBody : ℕ → List Char → List JValue → Option (JValue × List Char)
  | 0, _, _ => none
  | fuel + 1, cs, acc =>
    match cs with
    | ']' :: rest =>
      if acc.isEmpty then some (JValue.arr [], rest) else none
    | _ =>
      match parseVal fuel cs with
      | none => none
      | some (v, r1) =>
        match skipWs r1 with
        | ',' :: r2 => parseArrBody fuel (skipWs r2) (v :: acc)
        | ']' :: r2 => some (JValue.arr (v :: acc).reverse, r2)
        | _ => none

end

/-- Model of Python `json.loads`: parse one value surrounded by optional
whitespace and demand that the whole input is consumed. -/
def jsonLoads (s : String) : Option JValue :=
  match parseVal (2 * s.data.length + 4) (skipWs s.data) with
  | some (v, rest) => if (skipWs rest).isEmpty then some v else none
  | none => none

/-- Whether `json.loads` accepts the string without raising. -/
def jsonAccepts (s : String) : Bool :=
  (jsonLoads s).isSome

end PyJson

namespace Utils

open PyStr PyJson

/-- Index of the last occurrence of a character. -/
def lastIdxOf (c : Char) (cs : List Char) : Option ℕ :=
  (findSubIdx cs.reverse [c]).map (fun i => cs.length - 1 - i)

/-- `utils.clean_json_string`: extract a JSON string from raw LLM text.
First the fenced block regex (content of the first well-formed fenced
block that opens with three backticks followed by the word json,
whitespace-trimmed), then the brace regex (first opening brace through
the last closing brace, provided the first opening brace comes before
the last closing brace), else the stripped text. -/
def bracesFallback (text : String) : String :=
  let cs := text.data
  match findSubIdx cs ['\x7b'], lastIdxOf '\x7d' cs with
  | some a, some b =>
    if a < b then pyStrip (String.mk ((cs.drop a).take (b - a + 1)))
    else pyStrip text
  | _, _ => pyStrip text

def clean_json_string (text : String) : String :=
  let cs := text.data
  match findSubIdx cs ("\x60\x60\x60json".data) with
  | some i =>
    let after := cs.drop (i + 7)
    match findSubIdx after ("\x60\x60\x60".data) with
    | some k => pyStrip (String.mk (after.take k))
    | none => bracesFallback text
  | none => bracesFallback text

/-- The completion attempted by `utils.repair_json` on a string that
`json.loads` rejected: right-strip it and append the missing closing
square brackets and then the missing closing braces (each count taken
over the whole stripped string). -/
def repair_completion (json_str : String) : String :=
  let repaired := pyRstrip json_str
  let openBraces := repaired.data.count '\x7b'
  let closeBraces := repaired.data.count '\x7d'
  let openBrackets := repaired.data.count '['
  let closeBrackets := repaired.data.count ']'
  let r1 :=
    if closeBrackets < openBrackets then
      repaired ++ String.mk (List.replicate (openBrackets - closeBrackets) ']')
    else repaired
  if closeBraces < openBraces then
    r1 ++ String.mk (List.replicate (openBraces - closeBraces) '\x7d')
  else r1

/-- `utils.repair_json`: return the input if `json.loads` accepts it;
otherwise try the bracket completion; if the completion is accepted
return it, else return the two-character empty-object string. -/
def repair_json (json_str : String) : String :=
  if jsonAccepts json_str then json_str
  else if jsonAccepts (repair_completion json_str) then repair_completion json_str
  else "\x7b\x7d"

/-- The string the repair falls back to, i.e. an empty JSON object. -/
def emptyObjStr : String := "\x7b\x7d"

/-- One organic result of the Serper.dev response, fields optional as in
`item.get(...)`. -/
structure SearchItem where
  title : Option String
  snippet : Option String
  link : Option String

/-- Outcome of the Serper.dev POST in `utils.google_search`: a parsed
organic list, a `requests` exception, or any other exception. -/
inductive SearchOutcome where
  | ok (organic : List SearchItem)
  | requestExc (msg : String)
  | otherExc (msg : String)

def formatSearchItem (i : ℕ) (item : SearchItem) : String :=
  "[S" ++ toString i ++ "] URL: " ++ item.link.getD "无链接" ++
    " Title: " ++ item.title.getD "无标题" ++
    " Snippet: " ++ item.snippet.getD "无内容"

/-- `utils.google_search` over the outcome of its single HTTP POST. -/
def google_search (outcome : SearchOutcome) (start_id : ℕ) : String :=
  match outcome with
  | .ok organic =>
    let results := (List.enumFrom start_id (organic.take 5)).map
      (fun p => formatSearchItem p.1 p.2)
    if results.isEmpty then "" else String.intercalate "\n" results
  | .requestExc m => "网络搜索异常: " ++ m
  | .otherExc m => "搜索结果处理异常: " ++ m

/-- An extracted image together with the byte size used for sorting. -/
structure RawImage where
  page : ℕ
  data : String
  ext : String
  size : ℕ

/-- An image as returned to the caller (size field dropped). -/
structure OutImage where
  page : ℕ
  data : String
  ext : String

structure PdfResult where
  text : String
  images : List OutImage

/-- Outcome of the PyMuPDF walk in `utils.extract_content_from_pdf`:
either the accumulated page text and the filtered images with their
sizes, or an exception raised anywhere during parsing. -/
inductive PdfOutcome where
  | ok (fullText : String) (imagesWithSize : List RawImage)
  | exc (msg : String)

/-- `utils.extract_content_from_pdf`: on success strip the text and keep
the 50 largest images (stable descending sort by size); on any parse
failure return the failure banner text and an empty image list. -/
def extract_content_from_pdf : PdfOutcome → PdfResult
  | .ok fullText imgs =>
    let sorted := imgs.mergeSort (fun a b => decide (b.size ≤ a.size))
    { text := pyStrip fullText,
      images := (sorted.take 50).map (fun i => { page := i.page, data := i.data, ext := i.ext }) }
  | .exc msg => { text := "PDF 提取失败: " ++ msg, images := [] }

end Utils

namespace Concurrency

/-- A `ThreadPoolExecutor(max_workers=...)` creation site. -/
structure PoolSite where
  location : String
  maxWorkers : ℕ

/-- Every thread pool the program creates, with its worker bound, read
off the three `ThreadPoolExecutor` constructions in the source. -/
def threadPools : List PoolSite :=
  [ { location := "utils.describe_visual_elements", maxWorkers := 10 },
    { location := "agent.BusinessResearcher._concurrent_search", maxWorkers := 5 },
    { location := "agent.BusinessResearcher.analyze_bp_pipeline", maxWorkers := 4 } ]

end Concurrency

namespace Agent

open PyStr PyJson Utils

/-- Outcome of one chat-completions call made by a JSON-generation
subtask of `BusinessResearcher`. -/
inductive LlmOutcome where
  | ok (content : String)
  | exc (msg : String)

/-- Common body of the four JSON-generation subtasks: on a successful
LLM call, clean, repair and parse the output (a parse error would be
caught by the same try/except); on any exception return the empty
dict. -/
def generate_subtask_dict : LlmOutcome → JValue
  | .ok raw =>
    match jsonLoads (repair_json (clean_json_string raw)) with
    | some v => v
    | none => JValue.obj []
  | .exc _ => JValue.obj []

def generate_basic_info (o : LlmOutcome) : JValue := generate_subtask_dict o

def generate_external_intel (o : LlmOutcome) : JValue := generate_subtask_dict o

def generate_valuation (o : LlmOutcome) : JValue := generate_subtask_dict o

def generate_risks_and_qa (o : LlmOutcome) : JValue := generate_subtask_dict o

/-- Python dictionaries with string keys, in insertion order. -/
abbrev PyDict := List (String × PyJson.JValue)

def containsKey (d : PyDict) (k : String) : Bool :=
  d.any (fun kv => kv.1 == k)

def dictSet (d : PyDict) (k : String) (v : PyJson.JValue) : PyDict :=
  if containsKey d k then d.map (fun kv => if kv.1 == k then (k, v) else kv)
  else d ++ [(k, v)]

def dictUpdate (d e : PyDict) : PyDict :=
  e.foldl (fun acc kv => dictSet acc kv.1 kv.2) d

/-- The eleven keys `analyze_bp_pipeline` requires in its report. -/
def requiredKeys : List String :=
  [ "project_identity", "industry_analysis", "business_analysis",
    "competitors", "raw_evidence", "vc_grill", "valuation_model",
    "funding_ecosystem", "pain_point_validation", "public_sentiment",
    "risk_assessment" ]

/-- The hardcoded default filled in for a missing required key
(`detected_industry` is the industry perceived earlier in the
pipeline). -/
def defaultFor (detected_industry : String) (key : String) : JValue :=
  if key == "project_identity" then
    JValue.obj
      [ ("project_name", JValue.str "Unknown Project"),
        ("slogan", JValue.str "N/A"),
        ("description", JValue.str "未能从 BP 中提取深度描述"),
        ("revenue_model", JValue.str "N/A"),
        ("team_background", JValue.str "Not Mentioned"),
        ("stage", JValue.str "未知") ]
  else if key == "industry_analysis" then
    JValue.obj
      [ ("detected_industry", JValue.str detected_industry),
        ("market_size", JValue.str "Not Found"),
        ("cagr", JValue.str "Not Found"),
        ("source", JValue.str "N/A") ]
  else if key == "business_analysis" then
    JValue.obj
      [ ("business_model_critique", JValue.str "N/A"),
        ("technical_moat", JValue.str "N/A") ]
  else if key == "competitors" then JValue.arr []
  else if key == "raw_evidence" then JValue.arr []
  else if key == "vc_grill" then JValue.arr []
  else if key == "valuation_model" then
    JValue.obj
      [ ("total_score", JValue.num 50),
        ("rating", JValue.str "C"),
        ("summary", JValue.str "数据严重不足，无法进行全面量化评估"),
        ("dimensions", JValue.obj
          [ ("market", JValue.obj
              [ ("score", JValue.num 10), ("max_score", JValue.num 20),
                ("analysis", JValue.str "缺乏市场规模与增长数据"),
                ("sub_scores", JValue.obj
                  [ ("market_size", JValue.num 5), ("timing_growth", JValue.num 5) ]) ]),
            ("product", JValue.obj
              [ ("score", JValue.num 10), ("max_score", JValue.num 25),
                ("analysis", JValue.str "未能识别核心技术壁垒与创新点"),
                ("sub_scores", JValue.obj
                  [ ("uniqueness", JValue.num 5), ("moat", JValue.num 5) ]) ]),
            ("business_model", JValue.obj
              [ ("score", JValue.num 10), ("max_score", JValue.num 20),
                ("analysis", JValue.str "商业模式与盈利路径不明确"),
                ("sub_scores", JValue.obj
                  [ ("profitability", JValue.num 5), ("scalability", JValue.num 5) ]) ]),
            ("team", JValue.obj
              [ ("score", JValue.num 10), ("max_score", JValue.num 25),
                ("analysis", JValue.str "BP 中未提及核心团队背景"),
                ("sub_scores", JValue.obj
                  [ ("founder_capability", JValue.num 5), ("completeness", JValue.num 5) ]) ]),
            ("execution", JValue.obj
              [ ("score", JValue.num 10), ("max_score", JValue.num 10),
                ("analysis", JValue.str "缺乏业务验证与合规风险评估依据"),
                ("sub_scores", JValue.obj
                  [ ("traction", JValue.num 5), ("risk_safety", JValue.num 5) ]) ]) ]) ]
  else if key == "funding_ecosystem" then
    JValue.obj
      [ ("heat_level", JValue.str "Unknown"),
        ("trend_summary", JValue.str "Not Found") ]
  else if key == "pain_point_validation" then
    JValue.obj [ ("score", JValue.num 0), ("reason", JValue.str "N/A") ]
  else if key == "public_sentiment" then
    JValue.obj
      [ ("label", JValue.str "Neutral"),
        ("summary", JValue.str "Not Found") ]
  else if key == "risk_assessment" then JValue.arr [JValue.str "识别风险失败"]
  else JValue.null

/-- The completeness pass at the end of the pipeline: every required key
missing from the merged result is filled with its default. -/
def fillRequired (detected_industry : String) (d : PyDict) : PyDict :=
  requiredKeys.foldl
    (fun acc k =>
      if containsKey acc k then acc else dictSet acc k (defaultFor detected_industry k))
    d

/-- The non-exception body of `BusinessResearcher.analyze_bp_pipeline`
over the PDF extraction result and the four subtask dictionaries: an
early error dict when the extracted text signals a read failure,
otherwise the merged and default-completed report. -/
def analyze_bp_pipeline_body (pdf : Utils.PdfResult) (detected_industry : String)
    (basic intel valuation risks : PyDict) : PyDict :=
  if strContains pdf.text "失败" then
    [("error", JValue.str "PDF 内容无法读取")]
  else
    fillRequired detected_industry
      (dictUpdate (dictUpdate (dictUpdate (dictUpdate [] basic) intel) valuation) risks)

end Agent

namespace GitHubFetcher

open PyJson

/-- Outcome of one `session.get` attempt inside
`GitHubFetcher._api_get`: HTTP 200 with a JSON body, 404, 403
(rate limit), a timeout exception, or any other exception. -/
inductive ApiOutcome where
  | ok (body : JValue)
  | notFound
  | rateLimited
  | timeout
  | exc (msg : String)

/-- A run of the retry loop: the returned value, the number of attempts
made, and the sleeps performed (in seconds, in order). -/
structure ApiRun where
  result : Option JValue
  attempts : ℕ
  sleeps : List ℕ

/-- The `for attempt in range(retries)` loop of
`GitHubFetcher._api_get`, with `remaining` iterations left and the
current attempt index: 200 returns the body, 404 returns None without
retrying, 403 sleeps `2 ^ attempt` and retries, a timeout retries
immediately, another exception sleeps 1 and retries unless it was the
last attempt, and exhaustion of the loop returns None. -/
def api_get_go (f : ℕ → ApiOutcome) (retries attempt : ℕ) : ℕ → ApiRun
  | 0 => ⟨none, 0, []⟩
  | remaining + 1 =>
    match f attempt with
    | .ok v => ⟨some v, 1, []⟩
    | .notFound => ⟨none, 1, []⟩
    | .rateLimited =>
      let r := api_get_go f retries (attempt + 1) remaining
      ⟨r.result, r.attempts + 1, 2 ^ attempt :: r.sleeps⟩
    | .timeout =>
      let r := api_get_go f retries (attempt + 1) remaining
      ⟨r.result, r.attempts + 1, r.sleeps⟩
    | .exc _ =>
      if attempt < retries - 1 then
        let r := api_get_go f retries (attempt + 1) remaining
        ⟨r.result, r.attempts + 1, 1 :: r.sleeps⟩
      else ⟨none, 1, []⟩

/-- `GitHubFetcher._api_get` (the source default for `retries` is 3):
run the loop from attempt 0 with `retries` iterations available. -/
def api_get (f : ℕ → ApiOutcome) (retries : ℕ) : ApiRun :=
  api_get_go f retries 0 retries

end GitHubFetcher

namespace TechStackAnalyzer

open PyStr

/-- `TECH_CATEGORIES["cutting_edge"]` from `config.py`. -/
def cuttingEdgeTable : List String :=
  [ "vllm", "langchain", "langgraph", "autogen", "crewai",
    "lmdeploy", "ollama", "llamaindex", "llama-index", "dspy", "guidance",
    "outlines", "instructor", "pydantic-ai", "mirascope",
    "openai-agents", "smolagents", "agno", "phidata",
    "mem0", "letta", "browser-use", "crawl4ai",
    "unsloth", "axolotl", "trl",
    "ai", "@ai-sdk", "langchain", "llamaindex", "vercel-ai",
    "@langchain", "@anthropic-ai", "openai", "ai-sdk" ]

/-- `TECH_CATEGORIES["modern"]` from `config.py`. -/
def modernTable : List String :=
  [ "transformers", "openai", "anthropic", "cohere", "together",
    "fastapi", "streamlit", "gradio", "chainlit", "mesop",
    "chromadb", "pinecone", "weaviate", "qdrant", "milvus", "pgvector",
    "sentence-transformers", "huggingface-hub",
    "litellm", "groq", "fireworks-ai", "replicate",
    "modal", "ray", "celery",
    "next", "react", "vue", "svelte", "solid-js",
    "hono", "elysia", "bun", "deno", "drizzle-orm", "prisma",
    "trpc", "zod", "turborepo", "nx" ]

/-- `TECH_CATEGORIES["standard"]` from `config.py`. -/
def standardTable : List String :=
  [ "flask", "django", "requests", "numpy", "pandas",
    "scikit-learn", "matplotlib", "pillow", "opencv-python",
    "pydantic", "typer", "click", "rich",
    "express", "koa", "nestjs", "axios", "lodash",
    "typescript", "webpack", "vite", "eslint", "prettier" ]

def techCategories : List (String × List String) :=
  [ ("cutting_edge", cuttingEdgeTable),
    ("modern", modernTable),
    ("standard", standardTable) ]

def mapReplace (a b : Char) (s : String) : String :=
  String.mk (s.data.map (fun c => if c == a then b else c))

/-- `pkg.lower().replace("-", "_").replace("_", "-")`. -/
def normalizePkg (p : String) : String :=
  mapReplace '_' '-' (mapReplace '-' '_' (pyLower p))

/-- Package-name match of `_categorize_packages`: equality after
normalization or a leading match. -/
def pkgMatches (pkgNorm catPkg : String) : Bool :=
  let catNorm := normalizePkg catPkg
  pkgNorm == catNorm || startsWith pkgNorm catNorm

/-- First matching category of a package, in table order. -/
def categoryOf (pkg : String) : Option String :=
  let n := normalizePkg pkg
  (techCategories.find? (fun cat => cat.2.any (fun cp => pkgMatches n cp))).map
    (fun cat => cat.1)

/-- The classification dictionary built by `_categorize_packages`
(no package is ever put in `basic`, because `TECH_CATEGORIES` has no
such list). -/
structure Categorized where
  cutting_edge : List String
  modern : List String
  standard : List String
  basic : List String
  unknown : List String

def categorize_packages (pkgs : List String) : Categorized :=
  { cutting_edge := pkgs.filter (fun p => categoryOf p == some "cutting_edge"),
    modern := pkgs.filter (fun p => categoryOf p == some "modern"),
    standard := pkgs.filter (fun p => categoryOf p == some "standard"),
    basic := [],
    unknown := pkgs.filter (fun p => (categoryOf p).isNone) }

/-- `TechStackAnalyzer._calculate_score`: mean of category weights,
bonuses for multiple cutting-edge packages, a penalty for purely basic
stacks, and a final clamp into the 0 to 100 band. -/
def calculate_score (c : Categorized) (total_packages : ℕ) : ℚ :=
  if total_packages = 0 then 50
  else
    let totalScore : ℚ :=
      (c.cutting_edge.length : ℚ) * 100 + (c.modern.length : ℚ) * 75 +
      (c.standard.length : ℚ) * 50 + (c.basic.length : ℚ) * 30 +
      (c.unknown.length : ℚ) * 40
    let score0 := totalScore / (total_packages : ℚ)
    let score1 :=
      if 3 ≤ c.cutting_edge.length then min 100 (score0 + 10)
      else if 2 ≤ c.cutting_edge.length then min 100 (score0 + 5)
      else score0
    let score2 :=
      if c.cutting_edge.length = 0 ∧ c.modern.length = 0 then max 0 (score1 - 10)
      else score1
    min 100 (max 0 score2)

/-- The `score` field of `TechStackAnalyzer.analyze` as a function of
the deduplicated package list. -/
def analyze_score (packages : List String) : ℚ :=
  calculate_score (categorize_packages packages) packages.length

end TechStackAnalyzer

namespace SolutionAnalyzer

open PyStr

/-- `SolutionAnalyzer.INNOVATION_KEYWORDS`. -/
def INNOVATION_KEYWORDS : List String :=
  [ "novel", "innovative", "breakthrough", "first", "unique",
    "state-of-the-art", "cutting-edge", "pioneering", "revolutionary",
    "创新", "首创", "突破", "独创", "领先", "原创",
    "新颖", "前沿", "开创性", "革命性" ]

/-- `SolutionAnalyzer.DOMAIN_KEYWORDS`. -/
def DOMAIN_KEYWORDS : List (String × List String) :=
  [ ("nlp", ["nlp", "natural language", "text", "语言", "文本", "对话", "chatbot"]),
    ("cv", ["computer vision", "image", "video", "视觉", "图像", "视频", "检测"]),
    ("ml", ["machine learning", "deep learning", "neural", "机器学习", "深度学习", "神经网络"]),
    ("rag", ["rag", "retrieval", "knowledge base", "检索", "知识库", "向量"]),
    ("agent", ["agent", "autonomous", "multi-agent", "智能体", "代理", "自主"]),
    ("audio", ["audio", "speech", "voice", "音频", "语音", "声音"]),
    ("recommendation", ["recommendation", "personalization", "推荐", "个性化"]),
    ("automation", ["automation", "workflow", "pipeline", "自动化", "工作流"]) ]

/-- `SolutionAnalyzer.CROSS_DOMAIN_PAIRS`. -/
def CROSS_DOMAIN_PAIRS : List (String × String) :=
  [ ("nlp", "cv"), ("agent", "rag"), ("audio", "nlp"), ("ml", "automation") ]

/-- Distinct innovation keywords present in the lowered text. -/
def detect_innovation_keywords (text : String) : List String :=
  let tl := pyLower text
  INNOVATION_KEYWORDS.filter (fun kw => strContains tl (pyLower kw))

/-- Domains whose keyword list hits the lowered text, in table order. -/
def detect_domains (text : String) : List String :=
  let tl := pyLower text
  (DOMAIN_KEYWORDS.filter (fun d => d.2.any (fun kw => strContains tl kw))).map
    (fun d => d.1)

/-- `SolutionAnalyzer._is_cross_domain`. -/
def is_cross_domain (domains : List String) : Bool :=
  CROSS_DOMAIN_PAIRS.any (fun p => domains.contains p.1 && domains.contains p.2) ||
    decide (3 ≤ domains.length)

def problemIndicators : List String :=
  [ "problem", "challenge", "issue", "solve", "address", "pain point",
    "问题", "挑战", "解决", "痛点", "需求", "困难" ]

def scenarioIndicators : List String :=
  [ "use case", "scenario", "application", "example", "demo",
    "场景", "应用", "用途", "示例", "案例" ]

def userIndicators : List String :=
  [ "user", "developer", "researcher", "team", "enterprise", "for",
    "用户", "开发者", "研究者", "团队", "企业", "适合" ]

def backgroundIndicators : List String :=
  [ "background", "motivation", "why", "introduction", "overview",
    "背景", "动机", "为什么", "介绍", "概述" ]

/-- The `section_keywords` table of `_calculate_problem_clarity`. -/
def sectionKeywordTable : List (String × List String) :=
  [ ("title", ["# "]),
    ("description", ["introduction", "about", "overview", "介绍", "简介"]),
    ("features", ["feature", "功能", "特性"]),
    ("installation", ["install", "setup", "getting started", "安装", "开始"]),
    ("usage", ["usage", "how to", "example", "使用", "示例"]) ]

/-- Total of the clarity breakdown of `_calculate_problem_clarity`
(out of a fixed maximum of 100 points). -/
def problem_clarity_total (text : String) : ℕ :=
  let tl := pyLower text
  let p := if anyIn problemIndicators tl then 20 else 0
  let s := if anyIn scenarioIndicators tl then 15 else 0
  let u := if anyIn userIndicators tl then 15 else 0
  let b := if anyIn backgroundIndicators tl then 15 else 0
  let sectionCount :=
    (sectionKeywordTable.filter
      (fun row => row.2.any (fun kw => strContains tl (pyLower kw)))).length
  let sec := min 20 (sectionCount * 5)
  let l :=
    if 800 ≤ text.length ∧ text.length ≤ 3000 then 15
    else if 400 ≤ text.length ∧ text.length ≤ 5000 then 10
    else if 200 < text.length then 5
    else 0
  p + s + u + b + sec + l

/-- Clarity score on the 0 to 1 scale (`total_score / max_score`). -/
def problem_clarity (text : String) : ℚ :=
  (problem_clarity_total text : ℚ) / 100

def techIndicators : List String :=
  [ "algorithm", "model", "architecture", "pipeline", "framework", "method",
    "算法", "模型", "架构", "流程", "框架", "方法", "技术" ]

def comparisonIndicators : List String :=
  [ "compared to", "unlike", "different from", "improve", "better than",
    "vs", "versus", "相比", "不同于", "改进", "优于", "区别" ]

/-- The quantitative-metric regex battery of
`_calculate_solution_uniqueness`, each digit pattern reduced to its
characteristic adjacency. -/
def quantitativeFound (tl : String) : Bool :=
  digitThen ['%'] tl.data || digitThen ['x'] tl.data || digitThen ['倍'] tl.data ||
  digitThen ['m', 's'] tl.data || digitThen ['秒'] tl.data ||
  strContains tl "accuracy" || strContains tl "precision" ||
  strContains tl "recall" || strContains tl "f1" ||
  strContains tl "准确率" || strContains tl "性能" || strContains tl "效率"

/-- Total of the uniqueness breakdown of
`_calculate_solution_uniqueness` (out of a fixed maximum of 100). -/
def solution_uniqueness_total (text : String) (domains : List String)
    (innovationCount : ℕ) : ℕ :=
  let tl := pyLower text
  let kws := min 25 (innovationCount * 8)
  let dom :=
    if 3 ≤ domains.length then 20
    else if 2 ≤ domains.length then 15
    else if domains.length = 1 then 5
    else 0
  let techFound := (techIndicators.filter (fun i => strContains tl i)).length
  let tech := if 3 ≤ techFound then 20 else if 1 ≤ techFound then 10 else 0
  let comp := if anyIn comparisonIndicators tl then 20 else 0
  let quant := if quantitativeFound tl then 15 else 0
  kws + dom + tech + comp + quant

/-- Uniqueness score on the 0 to 1 scale. -/
def solution_uniqueness (text : String) (domains : List String)
    (innovationCount : ℕ) : ℚ :=
  (solution_uniqueness_total text domains innovationCount : ℚ) / 100

/-- Python `round(x, 1)`: bankers rounding to one decimal place. -/
def pyRound1 (x : ℚ) : ℚ :=
  let q := x * 10
  let f : ℤ := Int.floor q
  let frac := q - (f : ℚ)
  let n : ℤ :=
    if frac < 1 / 2 then f
    else if 1 / 2 < frac then f + 1
    else if f % 2 = 0 then f else f + 1
  (n : ℚ) / 10

/-- The section record built by `_extract_text_sections` (the
`full_text` entry is always the whole README and is kept implicit). -/
structure Sections where
  title : String
  description : String
  features : String
  usage : String

def setSection (s : Sections) (name content : String) : Sections :=
  if name == "features" then { s with features := content }
  else if name == "usage" then { s with usage := content }
  else { s with description := content }

/-- The line loop of `_extract_text_sections`. -/
def extractLoop : List String → Sections → String → List String → Sections
  | [], secs, current, acc =>
    if acc.isEmpty then secs
    else setSection secs current (String.intercalate "\n" acc.reverse)
  | line :: rest, secs, current, acc =>
    if startsWith line "# " then
      extractLoop rest { secs with title := pyStrip (String.mk (line.data.drop 2)) } current acc
    else if startsWith line "## " then
      let secs2 :=
        if acc.isEmpty then secs
        else setSection secs current (String.intercalate "\n" acc.reverse)
      let header := pyStrip (pyLower (String.mk (line.data.drop 3)))
      let current2 :=
        if strContains header "feature" || strContains header "功能" then "features"
        else if strContains header "usage" || strContains header "使用" ||
            strContains header "getting started" then "usage"
        else if strContains header "介绍" || strContains header "about" ||
            strContains header "introduction" then "description"
        else current
      extractLoop rest secs2 current2 []
    else extractLoop rest secs current (line :: acc)

def extract_text_sections (readme : String) : Sections :=
  extractLoop (readme.splitOn "\n") ⟨"", "", "", ""⟩ "description" []

/-- `SolutionAnalyzer._calculate_score` (defined in the source but with
the same clamp shape as the score actually assembled in `analyze`). -/
def calculate_score (problemClarity solutionUniqueness : ℚ)
    (isCrossDomain : Bool) (innovation_count : ℕ) : ℚ :=
  let score0 := problemClarity * 30 + solutionUniqueness * 40
  let score1 := if isCrossDomain then score0 + 15 else score0
  let score2 := score1 + ((min 15 (innovation_count * 5) : ℕ) : ℚ)
  min 100 (max 0 score2)

/-- The `score` field of `SolutionAnalyzer.analyze` on a README (the
optional `code_comments` argument defaults to the empty string): the
30-point floor for empty input, otherwise the clamped breakdown sum. -/
def analyze_score (readme_content : String) : ℚ :=
  let full_text := readme_content ++ "\n"
  if (pyStrip full_text).isEmpty then 30
  else
    let secs := extract_text_sections readme_content
    let innovationKeywords := detect_innovation_keywords full_text
    let domains := detect_domains full_text
    let cross := is_cross_domain domains
    let clarityText := secs.description ++ secs.title ++ readme_content
    let clarity := problem_clarity clarityText
    let uniq := solution_uniqueness full_text domains innovationKeywords.length
    let score :=
      pyRound1 (clarity * 40) + pyRound1 (uniq * 40) +
      (if cross then (15 : ℚ) else 0) +
      ((min 5 (innovationKeywords.length * 2) : ℕ) : ℚ)
    min 100 (max 0 score)

end SolutionAnalyzer

namespace InnovationScorer

open PyStr

/-- `DEFAULT_WEIGHTS` of the innovation configuration. -/
def DEFAULT_WEIGHTS : List (String × ℚ) :=
  [ ("tech_implementation", 13),
    ("architecture_design", 13),
    ("engineering_sustainability", 14),
    ("problem_value", 18),
    ("scenario_innovation", 24),
    ("market_fit", 18) ]

def sumValues (w : List (String × ℚ)) : ℚ :=
  (w.map Prod.snd).sum

/-- `InnovationScorer._normalize_weights`: scale every value so that
the total is 100, or return the default table when the total is 0. -/
def normalize_weights (w : List (String × ℚ)) : List (String × ℚ) :=
  let total := sumValues w
  if total = 0 then DEFAULT_WEIGHTS
  else w.map (fun kv => (kv.1, kv.2 * 100 / total))

/-- `INNOVATION_LEVELS` of the configuration, as the ordered band
table Python iterates. -/
def INNOVATION_LEVELS : List ((ℚ × ℚ) × (String × String)) :=
  [ ((90, 100), ("突破性创新", "⭐⭐⭐⭐⭐")),
    ((75, 89), ("显著创新", "⭐⭐⭐⭐")),
    ((60, 74), ("中等创新", "⭐⭐⭐")),
    ((40, 59), ("渐进改进", "⭐⭐")),
    ((0, 39), ("常规实现", "⭐")) ]

def findLevel : List ((ℚ × ℚ) × (String × String)) → ℚ → Option (String × String)
  | [], _ => none
  | (rng, lv) :: rest, s =>
    if rng.1 ≤ s ∧ s ≤ rng.2 then some lv else findLevel rest s

/-- `InnovationScorer._get_level`: first band containing the score,
else the lowest level. -/
def get_level (score : ℚ) : String × String :=
  (findLevel INNOVATION_LEVELS score).getD ("常规实现", "⭐")

/-- Rank of a level name on the intended quality ladder, used to state
monotonicity of the score-to-level mapping. -/
def levelRank (level : String) : ℕ :=
  if level == "突破性创新" then 5
  else if level == "显著创新" then 4
  else if level == "中等创新" then 3
  else if level == "渐进改进" then 2
  else 1

/-- `InnovationScorer.SCENARIO_KEYWORDS`. -/
def SCENARIO_KEYWORDS : List (String × List String) :=
  [ ("healthcare", ["医疗", "健康", "患者", "诊断", "阿尔茨海默", "alzheimer", "medical", "health", "patient"]),
    ("education", ["教育", "学习", "教学", "学生", "培训", "education", "learning", "student", "teacher"]),
    ("elderly_care", ["老年", "养老", "陪伴", "elderly", "senior", "aging", "care"]),
    ("accessibility", ["无障碍", "残障", "辅助", "accessibility", "disability", "assistive"]),
    ("mental_health", ["心理", "情绪", "心灵", "mental", "emotion", "therapy", "counseling"]),
    ("environment", ["环保", "可持续", "绿色", "environment", "sustainable", "green", "climate"]),
    ("social_good", ["公益", "慈善", "社会", "social", "charity", "nonprofit", "community"]),
    ("creative", ["创作", "艺术", "音乐", "creative", "art", "music", "design"]),
    ("productivity", ["效率", "自动化", "工作流", "productivity", "automation", "workflow"]),
    ("developer_tools", ["开发者", "工具", "SDK", "API", "developer", "tools", "framework"]) ]

/-- Categories of `_detect_scenario_keywords` that hit the lowered
text (keyword tables are matched verbatim, as in the source, so the
upper-case entries never match the lowered text). -/
def detect_scenario_keywords (text : String) : List String :=
  let tl := pyLower text
  (SCENARIO_KEYWORDS.filter (fun c => c.2.any (fun kw => strContains tl kw))).map
    (fun c => c.1)

def highValueScenarios : List String :=
  ["healthcare", "elderly_care", "accessibility", "mental_health", "social_good"]

/-- The `score` entry of `InnovationScorer._evaluate_scenario_innovation`:
base 40, scenario bonus, four specific-population bonuses, a
cross-domain bonus and a clarity bonus, capped at 100. -/
def evaluate_scenario_innovation_score (description readme : String)
    (crossDomain : Bool) (problemClarity : ℚ) : ℚ :=
  let full_text := description ++ " " ++ readme
  let tlFull := pyLower full_text
  let detected := detect_scenario_keywords full_text
  let s1 : ℚ :=
    if !detected.isEmpty then
      (if highValueScenarios.any (fun s => detected.contains s) then 25 else 15)
    else 0
  let g1 : ℚ :=
    if strContains tlFull "alzheimer" || strContains full_text "阿尔茨海默" then 10 else 0
  let g2 : ℚ :=
    if strContains tlFull "elderly" || strContains full_text "老年" then 5 else 0
  let g3 : ℚ :=
    if strContains tlFull "disabled" || strContains full_text "残障" ||
        strContains full_text "无障碍" then 10 else 0
  let g4 : ℚ :=
    if strContains tlFull "child" || strContains full_text "儿童" then 5 else 0
  let s3 : ℚ := if crossDomain && decide (2 ≤ detected.length) then 10 else 0
  let s4 : ℚ := if 7 / 10 < problemClarity then 5 else 0
  min 100 (40 + s1 + g1 + g2 + g3 + g4 + s3 + s4)

def integrationIndicators : List String :=
  ["api", "sdk", "plugin", "extension", "integration", "webhook"]

/-- The `score` entry of `InnovationScorer._evaluate_market_fit`:
base 40 plus trend, star, integration and license bonuses, capped at
100 (the license test keeps the Python operator precedence where the
emptiness guard binds only to the MIT check). -/
def evaluate_market_fit_score (cuttingEdge modern : List String)
    (stars : ℕ) (description readme licenseName : String) : ℚ :=
  let s1 : ℚ := if !cuttingEdge.isEmpty then 20 else if !modern.isEmpty then 10 else 0
  let s2 : ℚ := if 1000 < stars then 15 else if 100 < stars then 8 else 0
  let full_text := pyLower (description ++ " " ++ readme)
  let s3 : ℚ := if anyIn integrationIndicators full_text then 10 else 0
  let licLower := pyLower licenseName
  let s4 : ℚ :=
    if (licenseName != "" && strContains licLower "mit") || strContains licLower "apache"
    then 5 else 0
  min 100 (40 + s1 + s2 + s3 + s4)

/-- One entry of the `dimension_scores` list assembled by
`InnovationScorer.analyze`. -/
structure DimensionScore where
  name : String
  score : ℚ
  weight : ℚ
  weighted_score : ℚ
  category : String

/-- `weights.get(key, default)`. -/
def getWeight (w : List (String × ℚ)) (key : String) (dflt : ℚ) : ℚ :=
  match w.find? (fun kv => kv.1 == key) with
  | some kv => kv.2
  | none => dflt

/-- The six raw sub-scores fed into `InnovationScorer.analyze`. -/
structure SubScores where
  tech_implementation : ℚ
  architecture_design : ℚ
  engineering_sustainability : ℚ
  problem_value : ℚ
  scenario_innovation : ℚ
  market_fit : ℚ

/-- The `dimension_scores` list of `InnovationScorer.analyze`, with
each weighted score equal to raw score times looked-up weight over
100. -/
def dimension_scores (s : SubScores) (w : List (String × ℚ)) : List DimensionScore :=
  [ ⟨"tech_implementation", s.tech_implementation,
      getWeight w "tech_implementation" 13,
      s.tech_implementation * getWeight w "tech_implementation" 13 / 100, "tech"⟩,
    ⟨"architecture_design", s.architecture_design,
      getWeight w "architecture_design" 13,
      s.architecture_design * getWeight w "architecture_design" 13 / 100, "tech"⟩,
    ⟨"engineering_sustainability", s.engineering_sustainability,
      getWeight w "engineering_sustainability" 14,
      s.engineering_sustainability * getWeight w "engineering_sustainability" 14 / 100, "tech"⟩,
    ⟨"problem_value", s.problem_value,
      getWeight w "problem_value" 18,
      s.problem_value * getWeight w "problem_value" 18 / 100, "scenario"⟩,
    ⟨"scenario_innovation", s.scenario_innovation,
      getWeight w "scenario_innovation" 24,
      s.scenario_innovation * getWeight w "scenario_innovation" 24 / 100, "scenario"⟩,
    ⟨"market_fit", s.market_fit,
      getWeight w "market_fit" 18,
      s.market_fit * getWeight w "market_fit" 18 / 100, "scenario"⟩ ]

/-- `total_score = sum(d.weighted_score for d in dimension_scores)`. -/
def total_score (dims : List DimensionScore) : ℚ :=
  (dims.map (fun d => d.weighted_score)).sum

/-- Weighted sum over dimensions of the `tech` category. -/
def tech_innovation_score (dims : List DimensionScore) : ℚ :=
  ((dims.filter (fun d => d.category == "tech")).map (fun d => d.weighted_score)).sum

/-- Weighted sum over dimensions of the `scenario` category. -/
def scenario_innovation_score (dims : List DimensionScore) : ℚ :=
  ((dims.filter (fun d => d.category == "scenario")).map (fun d => d.weighted_score)).sum

end InnovationScorer

namespace SocialValueScorer

open PyStr

/-- The repository texts inspected by the social-value evaluators. -/
structure RepoText where
  description : String
  readme : String
  license_name : String

def fullText (r : RepoText) : String :=
  r.description ++ " " ++ r.readme

def lowerFull (r : RepoText) : String :=
  pyLower (fullText r)

def surveillanceKws : List String := ["监控", "surveillance", "monitoring", "tracking"]

def discriminationKws : List String := ["歧视", "偏见", "bias", "discrimination"]

def harmKws : List String := ["危害", "伤害", "harm", "danger"]

def deceptionKws : List String := ["欺骗", "操纵", "deception", "manipulation"]

/-- The sequential risk-level assignments of
`_evaluate_ethics_redline` (a later detected category overwrites the
level set by an earlier one). -/
def ethics_risk_level (r : RepoText) : String :=
  let tl := lowerFull r
  let l1 := if anyIn surveillanceKws tl then "需关注" else "安全"
  let l2 := if anyIn discriminationKws tl then "需关注" else l1
  let l3 := if anyIn harmKws tl then "危险" else l2
  let l4 := if anyIn deceptionKws tl then "需关注" else l3
  l4

/-- The `score` entry of `_evaluate_ethics_redline`. -/
def ethics_score (r : RepoText) : ℚ :=
  let tl := lowerFull r
  let s := (80 : ℚ) - (if anyIn surveillanceKws tl then 30 else 0) -
    (if anyIn discriminationKws tl then 25 else 0) -
    (if anyIn harmKws tl then 40 else 0) -
    (if anyIn deceptionKws tl then 20 else 0)
  max 0 (min 100 s)

def privacyKws : List String :=
  ["隐私", "数据保护", "privacy", "data protection", "consent", "同意"]

/-- The `score` entry of `_evaluate_privacy_protection`. -/
def privacy_score (r : RepoText) : ℚ :=
  let tl := lowerFull r
  let s := (70 : ℚ) + (if anyIn privacyKws tl then 15 else 0) +
    (if r.license_name != "" then 10 else 0)
  max 0 (min 100 s)

/-- The `compliance_level` entry of `_evaluate_privacy_protection`. -/
def privacy_compliance_level (r : RepoText) : String :=
  if 90 ≤ privacy_score r then "符合"
  else if privacy_score r < 60 then "不符合"
  else "基本符合"

def fairnessKws : List String := ["公平", "bias", "歧视", "fairness", "equity", "inclusion"]

def diversityKws : List String := ["多样性", "inclusion", "包容性", "diversity"]

/-- The `score` entry of `_evaluate_algorithm_fairness`. -/
def fairness_score (r : RepoText) : ℚ :=
  let tl := lowerFull r
  let s := (60 : ℚ) + (if anyIn fairnessKws tl then 25 else 0) +
    (if anyIn diversityKws tl then 10 else 0)
  max 0 (min 100 s)

/-- The `awareness_level` entry of `_evaluate_algorithm_fairness`. -/
def fairness_awareness (r : RepoText) : String :=
  let tl := lowerFull r
  let base := if anyIn fairnessKws tl then "高度自觉" else "基本意识"
  if fairness_score r < 50 then "缺乏考虑" else base

def socialImpactKws : List String :=
  [ "医疗", "健康", "教育", "养老", "残障", "无障碍", "弱势群体", "社会问题",
    "community", "health", "education", "elderly", "disability", "vulnerable" ]

def specificGroupKws : List String :=
  ["老人", "儿童", "残障", "弱势群体", "elderly", "children", "disabled", "vulnerable"]

def problemSolveKws : List String := ["解决", "问题", "solution", "solve", "address"]

/-- The `score` entry of `_evaluate_social_impact`. -/
def social_impact_score (r : RepoText) : ℚ :=
  let tl := lowerFull r
  let s := (50 : ℚ) + (if anyIn socialImpactKws tl then 25 else 0) +
    (if anyIn specificGroupKws tl then 15 else 0) +
    (if anyIn problemSolveKws tl then 10 else 0)
  max 0 (min 100 s)

def environmentalKws : List String :=
  ["环保", "可持续", "绿色", "气候", "低碳", "碳中和", "environment", "sustainable", "green", "climate"]

def sustainabilityKws : List String :=
  ["可持续", "sustainable", "绿色", "green", "低碳", "low carbon"]

def resourceKws : List String :=
  ["节能", "减排", "资源节约", "energy saving", "resource efficiency"]

/-- The `score` entry of `_evaluate_environmental_friendliness`. -/
def environmental_score (r : RepoText) : ℚ :=
  let tl := lowerFull r
  let s := (40 : ℚ) + (if anyIn environmentalKws tl then 35 else 0) +
    (if anyIn sustainabilityKws tl then 15 else 0) +
    (if anyIn resourceKws tl then 10 else 0)
  max 0 (min 100 s)

def charityKws : List String :=
  ["公益", "慈善", "非营利", "普惠", "accessibility", "charity", "nonprofit", "public good"]

def accessibilityBonusKws : List String :=
  ["普惠", "无障碍", "accessibility", "inclusive", "affordable"]

def nonprofitKws : List String :=
  ["非营利", "nonprofit", "慈善", "charity", "公益", "public good"]

/-- The `score` entry of `_evaluate_charity_orientation`. -/
def charity_score (r : RepoText) : ℚ :=
  let tl := lowerFull r
  let s := (45 : ℚ) + (if anyIn charityKws tl then 30 else 0) +
    (if anyIn accessibilityBonusKws tl then 15 else 0) +
    (if anyIn nonprofitKws tl then 10 else 0)
  max 0 (min 100 s)

def visionKws : List String :=
  ["长期", "愿景", "变革", "未来", "sustainable", "vision", "future", "transformation"]

def transformationKws : List String :=
  ["变革", "创新", "transformation", "innovation", "change"]

def systemKws : List String :=
  ["系统", "生态", "system", "ecosystem", "holistic"]

/-- The `score` entry of `_evaluate_long_term_vision`. -/
def vision_score (r : RepoText) : ℚ :=
  let tl := lowerFull r
  let s := (50 : ℚ) + (if anyIn visionKws tl then 20 else 0) +
    (if anyIn transformationKws tl then 15 else 0) +
    (if anyIn systemKws tl then 10 else 0)
  max 0 (min 100 s)

/-- The basic-items score of `SocialValueScorer.analyze`: start at 20,
zero out on an ethics red line, subtract the privacy and fairness
deductions, and clamp below at 0. -/
def basic_items_score (r : RepoText) : ℚ :=
  let riskLevel := ethics_risk_level r
  let b1 : ℚ := if riskLevel == "危险" then 0 else if riskLevel == "需关注" then 20 - 10 else 20
  let priv := privacy_compliance_level r
  let b2 := if priv == "不符合" then b1 - 10 else if priv == "基本符合" then b1 - 5 else b1
  let fair := fairness_awareness r
  let b3 := if fair == "缺乏考虑" then b2 - 10 else if fair == "基本意识" then b2 - 5 else b2
  max 0 b3

/-- The maximum of the four bonus-dimension scores, the value of the
core dimension picked by `max(bonus_evals, key=...)`. -/
def max_bonus_score (r : RepoText) : ℚ :=
  max (max (social_impact_score r) (environmental_score r))
    (max (charity_score r) (vision_score r))

/-- `bonus_items_score = (core_eval["score"] / 100.0) * 80.0`. -/
def bonus_items_score (r : RepoText) : ℚ :=
  max_bonus_score r / 100 * 80

/-- `total_score = basic_score + bonus_items_score`. -/
def social_total_score (r : RepoText) : ℚ :=
  basic_items_score r + bonus_items_score r

end SocialValueScorer

namespace Fixtures

/-- A weight dictionary with a negative entry whose values nevertheless
sum to 100, so that `_normalize_weights` returns it unchanged. -/
def badWeights : List (String × ℚ) :=
  [ ("tech_implementation", -10),
    ("architecture_design", 110),
    ("engineering_sustainability", 0),
    ("problem_value", 0),
    ("scenario_innovation", 0),
    ("market_fit", 0) ]

/-- Six in-range sub-scores: full marks on the first dimension, zero
elsewhere. -/
def score100 : InnovationScorer.SubScores :=
  ⟨100, 0, 0, 0, 0, 0⟩

/-- Six in-range sub-scores used to witness the bound. -/
def scoreMid : InnovationScorer.SubScores :=
  ⟨50, 60, 70, 80, 90, 100⟩

/-- A repository text containing only the harm risk keyword. -/
def riskyRepo : SocialValueScorer.RepoText :=
  ⟨"harm", "", ""⟩

/-- A harmless repository text. -/
def plainRepo : SocialValueScorer.RepoText :=
  ⟨"a tool", "hello", ""⟩

/-- An attempt trace whose first GitHub API attempt is rate-limited and
whose second returns HTTP 200. -/
def rateLimitedThenOk : ℕ → GitHubFetcher.ApiOutcome :=
  fun n => if n = 0 then .rateLimited else .ok PyJson.JValue.null

end Fixtures

section Helpers

open PyStr PyJson

theorem clampA_bounds (x : ℚ) : 0 ≤ max 0 (min 100 x) ∧ max 0 (min 100 x) ≤ 100 :=
  ⟨le_max_left 0 _, max_le (by norm_num) (min_le_left _ _)⟩

theorem clampB_bounds (x : ℚ) : 0 ≤ min 100 (max 0 x) ∧ min 100 (max 0 x) ≤ 100 :=
  ⟨le_min (by norm_num) (le_max_left 0 _), min_le_left _ _⟩

theorem min100_bounds (x : ℚ) (hx : 0 ≤ x) : 0 ≤ min 100 x ∧ min 100 x ≤ 100 :=
  ⟨le_min (by norm_num) hx, min_le_left _ _⟩

theorem emptyObj_accepted : jsonAccepts "\x7b\x7d" = true := by decide

theorem sumValues_nil : InnovationScorer.sumValues ([] : List (String × ℚ)) = 0 := rfl

theorem sumValues_cons (x : String × ℚ) (l : List (String × ℚ)) :
    InnovationScorer.sumValues (x :: l) = x.2 + InnovationScorer.sumValues l := by
  simp [InnovationScorer.sumValues]

theorem sumValues_map_mul_div (l : List (String × ℚ)) (a b : ℚ) :
    InnovationScorer.sumValues (l.map (fun kv => (kv.1, kv.2 * a / b))) =
      InnovationScorer.sumValues l * a / b := by
  induction l with
  | nil => simp [InnovationScorer.sumValues]
  | cons x t ih =>
    rw [List.map_cons, sumValues_cons, sumValues_cons, ih]
    ring

theorem sumValues_map_smul (l : List (String × ℚ)) (c : ℚ) :
    InnovationScorer.sumValues (l.map (fun kv => (kv.1, c * kv.2))) =
      c * InnovationScorer.sumValues l := by
  induction l with
  | nil => simp [InnovationScorer.sumValues]
  | cons x t ih =>
    rw [List.map_cons, sumValues_cons, sumValues_cons, ih]
    ring

theorem list_map_ext {α β : Type} (l : List α) (f g : α → β) (h : ∀ x, f x = g x) :
    l.map f = l.map g := by
  induction l with
  | nil => rfl
  | cons x t ih => simp [h, ih]

theorem normalize_of_sum_100 (u : List (String × ℚ))
    (h : InnovationScorer.sumValues u = 100) :
    InnovationScorer.normalize_weights u = u := by
  have hne : InnovationScorer.sumValues u ≠ 0 := by rw [h]; norm_num
  have hq : ∀ q : ℚ, q * 100 / 100 = q := fun q => by norm_num [mul_div_assoc]
  simp [InnovationScorer.normalize_weights, hne, h, hq]

end Helpers

section ClaimC9

open PyStr PyJson Utils

/-- Claim C9 (amended): for every input `s`, `repair_json s` is
accepted by `json.loads`; it equals `s` when `s` is already accepted,
the bracket completion of the right-stripped `s` when that completion
is accepted, and the empty-object string otherwise; consequently
`repair_json` is idempotent.  (The claim as frozen said the brackets
are appended to `s` itself; the source appends them to `s.rstrip()`.) -/
theorem repair_json_total_trichotomy_idempotent (s : String) :
    jsonAccepts (Utils.repair_json s) = true ∧
    (jsonAccepts s = true → Utils.repair_json s = s) ∧
    (jsonAccepts s = false → jsonAccepts (Utils.repair_completion s) = true →
      Utils.repair_json s = Utils.repair_completion s) ∧
    (jsonAccepts s = false → jsonAccepts (Utils.repair_completion s) = false →
      Utils.repair_json s = "\x7b\x7d") ∧
    Utils.repair_json (Utils.repair_json s) = Utils.repair_json s := by
  by_cases h1 : jsonAccepts s = true
  · have hr : Utils.repair_json s = s := by simp [Utils.repair_json, h1]
    exact ⟨by rw [hr]; exact h1,
      fun _ => hr,
      fun hf _ => absurd h1 (by simp [hf]),
      fun hf _ => absurd h1 (by simp [hf]),
      by rw [hr, hr]⟩
  · have hf : jsonAccepts s = false := by simpa using h1
    by_cases h2 : jsonAccepts (Utils.repair_completion s) = true
    · have hr : Utils.repair_json s = Utils.repair_completion s := by
        simp [Utils.repair_json, hf, h2]
      refine ⟨by rw [hr]; exact h2,
        fun hc => absurd hc (by simp [hf]),
        fun _ _ => hr,
        fun _ hcc => absurd h2 (by simp [hcc]), ?_⟩
      rw [hr]
      simp [Utils.repair_json, h2]
    · have h2f : jsonAccepts (Utils.repair_completion s) = false := by simpa using h2
      have hr : Utils.repair_json s = "\x7b\x7d" := by
        simp [Utils.repair_json, hf, h2f]
      refine ⟨by rw [hr]; exact emptyObj_accepted,
        fun hc => absurd hc (by simp [hf]),
        fun _ hcc => absurd hcc (by simp [h2f]),
        fun _ _ => hr, ?_⟩
      rw [hr]
      simp [Utils.repair_json, emptyObj_accepted]

/-- Claim C9, counterexample to the frozen wording: on the input
consisting of an opening bracket, the digit 1 and a trailing space, the
input is rejected by `json.loads`, the claimed completion (the input
itself with the missing bracket appended) is accepted, yet the repair
returns the right-stripped completion, which is none of the three
strings the claim allows. -/
theorem repair_json_rstrip_counterexample :
    jsonAccepts "[1 " = false ∧
    jsonAccepts ("[1 " ++ "]") = true ∧
    Utils.repair_json "[1 " = "[1]" ∧
    Utils.repair_json "[1 " ≠ "[1 " ∧
    Utils.repair_json "[1 " ≠ "[1 " ++ "]" ∧
    Utils.repair_json "[1 " ≠ "\x7b\x7d" := by
  refine ⟨by decide, by decide, by decide, by decide, by decide, by decide⟩

/-- Claim C9, witness: the theorem applied to the truncated array
string consisting of an opening bracket and the digit 1. -/
theorem repair_json_c9_witness :
    jsonAccepts "[1" = false ∧
    jsonAccepts (Utils.repair_completion "[1") = true ∧
    Utils.repair_json "[1" = Utils.repair_completion "[1" ∧
    Utils.repair_json (Utils.repair_json "[1") = Utils.repair_json "[1" :=
  ⟨by decide, by decide,
   (repair_json_total_trichotomy_idempotent "[1").2.2.1 (by decide) (by decide),
   (repair_json_total_trichotomy_idempotent "[1").2.2.2.2⟩

end ClaimC9

section ClaimC7

open InnovationScorer

/-- Claim C7: for every weight dictionary with positive value sum,
`_normalize_weights` returns values summing to exactly 100, is
invariant under scaling all inputs by one positive constant, and is
idempotent; for a dictionary summing to 0 it returns the default
weight table. -/
theorem normalize_weights_c7 :
    (∀ w : List (String × ℚ), 0 < sumValues w →
      sumValues (normalize_weights w) = 100 ∧
      (∀ c : ℚ, 0 < c →
        normalize_weights (w.map (fun kv => (kv.1, c * kv.2))) = normalize_weights w) ∧
      normalize_weights (normalize_weights w) = normalize_weights w) ∧
    (∀ w : List (String × ℚ), sumValues w = 0 →
      normalize_weights w = DEFAULT_WEIGHTS) := by
  refine ⟨fun w hw => ?_, fun w hw => by simp [normalize_weights, hw]⟩
  have hne : sumValues w ≠ 0 := ne_of_gt hw
  have hnorm : normalize_weights w =
      w.map (fun kv => (kv.1, kv.2 * 100 / sumValues w)) := by
    simp [normalize_weights, hne]
  have hsum : sumValues (normalize_weights w) = 100 := by
    rw [hnorm, sumValues_map_mul_div]
    field_simp
  refine ⟨hsum, fun c hc => ?_, normalize_of_sum_100 _ hsum⟩
  have hcne : c ≠ 0 := ne_of_gt hc
  have hsc : sumValues (w.map fun kv => (kv.1, c * kv.2)) = c * sumValues w :=
    sumValues_map_smul w c
  have hscne : c * sumValues w ≠ 0 := ne_of_gt (mul_pos hc hw)
  have hpt : ∀ x : ℚ, c * x * 100 / (c * sumValues w) = x * 100 / sumValues w := by
    intro x
    field_simp
    ring
  have hscnorm : normalize_weights (w.map fun kv => (kv.1, c * kv.2)) =
      (w.map fun kv => (kv.1, c * kv.2)).map
        (fun kv => (kv.1, kv.2 * 100 / (c * sumValues w))) := by
    simp [normalize_weights, hsc, hscne]
  rw [hscnorm, hnorm, List.map_map]
  refine list_map_ext w _ _ (fun kv => ?_)
  show (kv.1, c * kv.2 * 100 / (c * sumValues w)) = (kv.1, kv.2 * 100 / sumValues w)
  rw [hpt]

/-- Claim C7, witness: the theorem applied to the dictionary mapping a
to 1 and b to 3 with scaling constant 2, and to the empty dictionary
for the zero-sum branch. -/
theorem normalize_weights_c7_witness :
    0 < sumValues [("a", (1 : ℚ)), ("b", 3)] ∧
    sumValues (normalize_weights [("a", (1 : ℚ)), ("b", 3)]) = 100 ∧
    normalize_weights ([("a", (1 : ℚ)), ("b", 3)].map (fun kv => (kv.1, 2 * kv.2))) =
      normalize_weights [("a", (1 : ℚ)), ("b", 3)] ∧
    normalize_weights ([] : List (String × ℚ)) = DEFAULT_WEIGHTS :=
  ⟨by norm_num [InnovationScorer.sumValues],
   (normalize_weights_c7.1 _ (by norm_num [InnovationScorer.sumValues])).1,
   (normalize_weights_c7.1 _ (by norm_num [InnovationScorer.sumValues])).2.1 2 (by norm_num),
   normalize_weights_c7.2 [] (by norm_num [InnovationScorer.sumValues])⟩

end ClaimC7

section ClaimC8

open InnovationScorer

/-- Claim C8: the innovation-level table has gaps between its integer
bands: every score strictly inside one of the four gaps (39 to 40,
59 to 60, 74 to 75, 89 to 90) matches no band, so `_get_level` falls
back to the lowest level; consequently the score-to-level mapping is
not monotone in the score. -/
theorem get_level_gaps_not_monotone :
    (∀ s : ℚ,
      (39 < s ∧ s < 40) ∨ (59 < s ∧ s < 60) ∨ (74 < s ∧ s < 75) ∨ (89 < s ∧ s < 90) →
      get_level s = ("常规实现", "⭐")) ∧
    ¬ Monotone (fun s : ℚ => levelRank (get_level s).1) := by
  constructor
  · intro s h
    simp only [get_level, INNOVATION_LEVELS, findLevel, Option.getD]
    rcases h with ⟨h1, h2⟩ | ⟨h1, h2⟩ | ⟨h1, h2⟩ | ⟨h1, h2⟩ <;>
      (split_ifs with hA hB hC hD hE <;>
        first
          | rfl
          | (exfalso;
             first
               | (obtain ⟨x, y⟩ := hA; linarith)
               | (obtain ⟨x, y⟩ := hB; linarith)
               | (obtain ⟨x, y⟩ := hC; linarith)
               | (obtain ⟨x, y⟩ := hD; linarith)))
  · intro hmono
    have h12 := hmono (show (74 : ℚ) ≤ 149 / 2 by norm_num)
    have e1 : get_level (74 : ℚ) = ("中等创新", "⭐⭐⭐") := by
      norm_num [get_level, INNOVATION_LEVELS, findLevel]
    have e2 : get_level ((149 : ℚ) / 2) = ("常规实现", "⭐") := by
      norm_num [get_level, INNOVATION_LEVELS, findLevel]
    have r1 : levelRank ("中等创新", "⭐⭐⭐").1 = 3 := by decide
    have r2 : levelRank ("常规实现", "⭐").1 = 1 := by decide
    simp only [] at h12
    rw [e1, e2, r1, r2] at h12
    norm_num at h12

/-- Claim C8, witness: the score 74.5 lies in the gap between the
third and second bands and is mapped to the lowest level, while the
smaller score 74 is mapped to the third band. -/
theorem get_level_gap_witness :
    (74 < (149 : ℚ) / 2 ∧ (149 : ℚ) / 2 < 75) ∧
    get_level ((149 : ℚ) / 2) = ("常规实现", "⭐") :=
  ⟨by norm_num,
   get_level_gaps_not_monotone.1 ((149 : ℚ) / 2)
     (Or.inr (Or.inr (Or.inl ⟨by norm_num, by norm_num⟩)))⟩

end ClaimC8

section ClaimC3

open InnovationScorer

theorem wterm_bounds (s w : ℚ) (hs0 : 0 ≤ s) (hs1 : s ≤ 100) (hw : 0 ≤ w) :
    0 ≤ s * w / 100 ∧ s * w / 100 ≤ w := by
  constructor
  · positivity
  · rw [div_le_iff₀ (by norm_num : (0 : ℚ) < 100)]
    nlinarith

/-- Claim C3 (amended): the total score of `InnovationScorer.analyze`
equals the sum over the six dimensions of score times looked-up weight
over 100, and equals the tech block plus the scenario block; when every
dimension score is in the 0 to 100 band, every looked-up weight is
nonnegative, and the six looked-up weights sum to 100, the total lies
in the 0 to 100 band.  (The frozen claim omitted the nonnegativity of
the weights, without which the bound fails.) -/
theorem innovation_total_decomposition_and_bounds :
    (∀ (s : SubScores) (w : List (String × ℚ)),
      total_score (dimension_scores s w) =
        s.tech_implementation * getWeight w "tech_implementation" 13 / 100 +
        s.architecture_design * getWeight w "architecture_design" 13 / 100 +
        s.engineering_sustainability * getWeight w "engineering_sustainability" 14 / 100 +
        s.problem_value * getWeight w "problem_value" 18 / 100 +
        s.scenario_innovation * getWeight w "scenario_innovation" 24 / 100 +
        s.market_fit * getWeight w "market_fit" 18 / 100) ∧
    (∀ (s : SubScores) (w : List (String × ℚ)),
      total_score (dimension_scores s w) =
        tech_innovation_score (dimension_scores s w) +
          scenario_innovation_score (dimension_scores s w)) ∧
    (∀ (s : SubScores) (w : List (String × ℚ)),
      ((0 ≤ s.tech_implementation ∧ s.tech_implementation ≤ 100) ∧
       (0 ≤ s.architecture_design ∧ s.architecture_design ≤ 100) ∧
       (0 ≤ s.engineering_sustainability ∧ s.engineering_sustainability ≤ 100) ∧
       (0 ≤ s.problem_value ∧ s.problem_value ≤ 100) ∧
       (0 ≤ s.scenario_innovation ∧ s.scenario_innovation ≤ 100) ∧
       (0 ≤ s.market_fit ∧ s.market_fit ≤ 100)) →
      (0 ≤ getWeight w "tech_implementation" 13 ∧
       0 ≤ getWeight w "architecture_design" 13 ∧
       0 ≤ getWeight w "engineering_sustainability" 14 ∧
       0 ≤ getWeight w "problem_value" 18 ∧
       0 ≤ getWeight w "scenario_innovation" 24 ∧
       0 ≤ getWeight w "market_fit" 18) →
      getWeight w "tech_implementation" 13 + getWeight w "architecture_design" 13 +
        getWeight w "engineering_sustainability" 14 + getWeight w "problem_value" 18 +
        getWeight w "scenario_innovation" 24 + getWeight w "market_fit" 18 = 100 →
      0 ≤ total_score (dimension_scores s w) ∧
        total_score (dimension_scores s w) ≤ 100) := by
  refine ⟨fun s w => ?_, fun s w => ?_, fun s w hs hw hsum => ?_⟩
  · simp [total_score, dimension_scores]
    ring
  · simp [total_score, tech_innovation_score, scenario_innovation_score, dimension_scores]
    ring
  · obtain ⟨⟨a0, a1⟩, ⟨b0, b1⟩, ⟨c0, c1⟩, ⟨d0, d1⟩, ⟨e0, e1⟩, ⟨f0, f1⟩⟩ := hs
    obtain ⟨wa, wb, wc, wd, we, wf⟩ := hw
    have hdec : total_score (dimension_scores s w) =
        s.tech_implementation * getWeight w "tech_implementation" 13 / 100 +
        s.architecture_design * getWeight w "architecture_design" 13 / 100 +
        s.engineering_sustainability * getWeight w "engineering_sustainability" 14 / 100 +
        s.problem_value * getWeight w "problem_value" 18 / 100 +
        s.scenario_innovation * getWeight w "scenario_innovation" 24 / 100 +
        s.market_fit * getWeight w "market_fit" 18 / 100 := by
      simp [total_score, dimension_scores]
      ring
    have t1 := wterm_bounds _ _ a0 a1 wa
    have t2 := wterm_bounds _ _ b0 b1 wb
    have t3 := wterm_bounds _ _ c0 c1 wc
    have t4 := wterm_bounds _ _ d0 d1 wd
    have t5 := wterm_bounds _ _ e0 e1 we
    have t6 := wterm_bounds _ _ f0 f1 wf
    rw [hdec]
    constructor
    · linarith [t1.1, t2.1, t3.1, t4.1, t5.1, t6.1]
    · linarith [t1.2, t2.2, t3.2, t4.2, t5.2, t6.2]

/-- Claim C3, counterexample to the frozen wording: a weight dictionary
containing a negative weight still normalizes to values summing to
100, and with all six dimension scores inside the 0 to 100 band the
resulting total score is -10, outside the claimed interval. -/
theorem innovation_total_negative_counterexample :
    InnovationScorer.sumValues (normalize_weights Fixtures.badWeights) = 100 ∧
    ((0 : ℚ) ≤ Fixtures.score100.tech_implementation ∧
      Fixtures.score100.tech_implementation ≤ 100) ∧
    ((0 : ℚ) ≤ Fixtures.score100.market_fit ∧ Fixtures.score100.market_fit ≤ 100) ∧
    total_score (dimension_scores Fixtures.score100 (normalize_weights Fixtures.badWeights)) = -10 ∧
    ¬ (0 ≤ total_score (dimension_scores Fixtures.score100 (normalize_weights Fixtures.badWeights))) := by
  have hw : normalize_weights Fixtures.badWeights = Fixtures.badWeights := by
    have hs : InnovationScorer.sumValues Fixtures.badWeights = 100 := by
      norm_num [InnovationScorer.sumValues, Fixtures.badWeights]
    exact normalize_of_sum_100 _ hs
  rw [hw]
  refine ⟨by norm_num [InnovationScorer.sumValues, Fixtures.badWeights],
    by norm_num [Fixtures.score100], by norm_num [Fixtures.score100], ?_, ?_⟩ <;>
    norm_num [total_score, dimension_scores, getWeight, Fixtures.badWeights, Fixtures.score100]

/-- Claim C3, witness: the bound applied to six mid-range scores with
the default weight table, whose looked-up weights are nonnegative and
sum to 100. -/
theorem innovation_total_c3_witness :
    getWeight DEFAULT_WEIGHTS "tech_implementation" 13 +
      getWeight DEFAULT_WEIGHTS "architecture_design" 13 +
      getWeight DEFAULT_WEIGHTS "engineering_sustainability" 14 +
      getWeight DEFAULT_WEIGHTS "problem_value" 18 +
      getWeight DEFAULT_WEIGHTS "scenario_innovation" 24 +
      getWeight DEFAULT_WEIGHTS "market_fit" 18 = 100 ∧
    0 ≤ total_score (dimension_scores Fixtures.scoreMid DEFAULT_WEIGHTS) ∧
    total_score (dimension_scores Fixtures.scoreMid DEFAULT_WEIGHTS) ≤ 100 := by
  have g1 : getWeight DEFAULT_WEIGHTS "tech_implementation" 13 = 13 := rfl
  have g2 : getWeight DEFAULT_WEIGHTS "architecture_design" 13 = 13 := rfl
  have g3 : getWeight DEFAULT_WEIGHTS "engineering_sustainability" 14 = 14 := rfl
  have g4 : getWeight DEFAULT_WEIGHTS "problem_value" 18 = 18 := rfl
  have g5 : getWeight DEFAULT_WEIGHTS "scenario_innovation" 24 = 24 := rfl
  have g6 : getWeight DEFAULT_WEIGHTS "market_fit" 18 = 18 := rfl
  have hsum : getWeight DEFAULT_WEIGHTS "tech_implementation" 13 +
      getWeight DEFAULT_WEIGHTS "architecture_design" 13 +
      getWeight DEFAULT_WEIGHTS "engineering_sustainability" 14 +
      getWeight DEFAULT_WEIGHTS "problem_value" 18 +
      getWeight DEFAULT_WEIGHTS "scenario_innovation" 24 +
      getWeight DEFAULT_WEIGHTS "market_fit" 18 = 100 := by
    rw [g1, g2, g3, g4, g5, g6]
    norm_num
  have hb := innovation_total_decomposition_and_bounds.2.2 Fixtures.scoreMid DEFAULT_WEIGHTS
    (by norm_num [Fixtures.scoreMid])
    (by rw [g1, g2, g3, g4, g5, g6]; norm_num) hsum
  exact ⟨hsum, hb.1, hb.2⟩

end ClaimC3

section ClaimC1

/-- Claim C1: the score returned by the tech-stack analyzer's analyze
method, by the solution analyzer's analyze method (and its
`_calculate_score`), and by the scenario-innovation and market-fit
evaluators of `InnovationScorer`, always lies in the closed interval
from 0 to 100. -/
theorem analyzer_scores_clamped_c1 :
    (∀ pkgs : List String,
      0 ≤ TechStackAnalyzer.analyze_score pkgs ∧
        TechStackAnalyzer.analyze_score pkgs ≤ 100) ∧
    (∀ readme : String,
      0 ≤ SolutionAnalyzer.analyze_score readme ∧
        SolutionAnalyzer.analyze_score readme ≤ 100) ∧
    (∀ (pc su : ℚ) (cd : Bool) (n : ℕ),
      0 ≤ SolutionAnalyzer.calculate_score pc su cd n ∧
        SolutionAnalyzer.calculate_score pc su cd n ≤ 100) ∧
    (∀ (d r : String) (cd : Bool) (pc : ℚ),
      0 ≤ InnovationScorer.evaluate_scenario_innovation_score d r cd pc ∧
        InnovationScorer.evaluate_scenario_innovation_score d r cd pc ≤ 100) ∧
    (∀ (ce mo : List String) (st : ℕ) (d r lic : String),
      0 ≤ InnovationScorer.evaluate_market_fit_score ce mo st d r lic ∧
        InnovationScorer.evaluate_market_fit_score ce mo st d r lic ≤ 100) := by
  refine ⟨fun pkgs => ?_, fun readme => ?_, fun pc su cd n => ?_,
    fun d r cd pc => ?_, fun ce mo st d r lic => ?_⟩
  · simp only [TechStackAnalyzer.analyze_score, TechStackAnalyzer.calculate_score]
    by_cases h : pkgs.length = 0
    · rw [if_pos h]
      norm_num
    · rw [if_neg h]
      exact clampB_bounds _
  · simp only [SolutionAnalyzer.analyze_score]
    by_cases h : (PyStr.pyStrip (readme ++ "\n")).isEmpty = true
    · rw [if_pos h]
      norm_num
    · rw [if_neg h]
      exact clampB_bounds _
  · simp only [SolutionAnalyzer.calculate_score]
    exact clampB_bounds _
  · simp only [InnovationScorer.evaluate_scenario_innovation_score]
    constructor
    · refine le_min (by norm_num) ?_
      split_ifs <;> norm_num
    · exact min_le_left _ _
  · simp only [InnovationScorer.evaluate_market_fit_score]
    constructor
    · refine le_min (by norm_num) ?_
      split_ifs <;> norm_num
    · exact min_le_left _ _

end ClaimC1

section ClaimC4

open SocialValueScorer

theorem basic_items_score_bounds (r : RepoText) :
    0 ≤ basic_items_score r ∧ basic_items_score r ≤ 20 := by
  simp only [basic_items_score]
  constructor
  · split_ifs <;> norm_num
  · split_ifs <;> norm_num

theorem max_bonus_score_bounds (r : RepoText) :
    0 ≤ max_bonus_score r ∧ max_bonus_score r ≤ 100 := by
  have h1 := clampA_bounds ((50 : ℚ) + (if PyStr.anyIn socialImpactKws (lowerFull r) then 25 else 0) +
    (if PyStr.anyIn specificGroupKws (lowerFull r) then 15 else 0) +
    (if PyStr.anyIn problemSolveKws (lowerFull r) then 10 else 0))
  have h2 := clampA_bounds ((40 : ℚ) + (if PyStr.anyIn environmentalKws (lowerFull r) then 35 else 0) +
    (if PyStr.anyIn sustainabilityKws (lowerFull r) then 15 else 0) +
    (if PyStr.anyIn resourceKws (lowerFull r) then 10 else 0))
  have h3 := clampA_bounds ((45 : ℚ) + (if PyStr.anyIn charityKws (lowerFull r) then 30 else 0) +
    (if PyStr.anyIn accessibilityBonusKws (lowerFull r) then 15 else 0) +
    (if PyStr.anyIn nonprofitKws (lowerFull r) then 10 else 0))
  have h4 := clampA_bounds ((50 : ℚ) + (if PyStr.anyIn visionKws (lowerFull r) then 20 else 0) +
    (if PyStr.anyIn transformationKws (lowerFull r) then 15 else 0) +
    (if PyStr.anyIn systemKws (lowerFull r) then 10 else 0))
  simp only [max_bonus_score, social_impact_score, environmental_score,
    charity_score, vision_score]
  constructor
  · exact le_trans h1.1 (le_trans (le_max_left _ _) (le_max_left _ _))
  · exact max_le (max_le h1.2 h2.2) (max_le h3.2 h4.2)

/-- Claim C4: the total social-value score is the basic-items score
plus the bonus-items score; the basic-items score starts at 20, takes
fixed deductions, is clamped below at 0 and is 0 whenever the ethics
risk level is the danger level; the bonus-items score is the maximum
of the four bonus-dimension scores over 100 times 80; and the total
always lies between 0 and 100. -/
theorem social_value_total_c4 :
    (∀ r : RepoText, social_total_score r = basic_items_score r + bonus_items_score r) ∧
    (∀ r : RepoText, bonus_items_score r = max_bonus_score r / 100 * 80) ∧
    (∀ r : RepoText, ethics_risk_level r = "危险" → basic_items_score r = 0) ∧
    (∀ r : RepoText, 0 ≤ social_total_score r ∧ social_total_score r ≤ 100) := by
  refine ⟨fun r => rfl, fun r => rfl, fun r hrisk => ?_, fun r => ?_⟩
  · simp only [basic_items_score, hrisk]
    norm_num
    split_ifs <;> norm_num
  · have hb := basic_items_score_bounds r
    have hm := max_bonus_score_bounds r
    have hbonus : 0 ≤ bonus_items_score r ∧ bonus_items_score r ≤ 80 := by
      simp only [bonus_items_score]
      constructor
      · exact mul_nonneg (div_nonneg hm.1 (by norm_num)) (by norm_num)
      · linarith [hm.2]
    simp only [social_total_score]
    constructor
    · linarith [hb.1, hbonus.1]
    · linarith [hb.2, hbonus.2]

/-- Claim C4, witness: a repository text containing only the harm risk
keyword is rated at the danger ethics level, its basic-items score is
forced to 0, and its total score stays inside the 0 to 100 band. -/
theorem social_value_c4_witness :
    ethics_risk_level Fixtures.riskyRepo = "危险" ∧
    basic_items_score Fixtures.riskyRepo = 0 ∧
    (0 ≤ social_total_score Fixtures.riskyRepo ∧
      social_total_score Fixtures.riskyRepo ≤ 100) :=
  ⟨by decide,
   social_value_total_c4.2.2.1 Fixtures.riskyRepo (by decide),
   social_value_total_c4.2.2.2 Fixtures.riskyRepo⟩

end ClaimC4

section ClaimC2

open GitHubFetcher

theorem api_get_go_attempts_le :
    ∀ (rem : ℕ) (f : ℕ → ApiOutcome) (retries attempt : ℕ),
      (api_get_go f retries attempt rem).attempts ≤ rem := by
  intro rem
  induction rem with
  | zero => intro f retries attempt; simp [api_get_go]
  | succ n ih =>
    intro f retries attempt
    simp only [api_get_go]
    cases hf : f attempt
    case ok v => simp
    case notFound => simp
    case rateLimited =>
      dsimp only
      have := ih f retries (attempt + 1)
      omega
    case timeout =>
      dsimp only
      have := ih f retries (attempt + 1)
      omega
    case exc m =>
      dsimp only
      split_ifs
      · dsimp only
        have := ih f retries (attempt + 1)
        omega
      · simp

/-- Claim C2 (amended): `GitHubFetcher._api_get` does retry: it makes
at most `retries` attempts; a first attempt answering 200 is the only
attempt; and a first attempt that is rate-limited is followed by a
sleep of `2 ^ 0` seconds and a second attempt whose 200 response is
returned.  (The frozen claim said no wrapper ever re-attempts a call;
this wrapper re-attempts up to `retries` times with exponential
backoff.) -/
theorem api_get_retry_behavior :
    (∀ (f : ℕ → ApiOutcome) (retries : ℕ), (api_get f retries).attempts ≤ retries) ∧
    (∀ (f : ℕ → ApiOutcome) (retries : ℕ) (v : PyJson.JValue),
      f 0 = .ok v → 1 ≤ retries → api_get f retries = ⟨some v, 1, []⟩) ∧
    (∀ (f : ℕ → ApiOutcome) (retries : ℕ) (v : PyJson.JValue),
      f 0 = .rateLimited → f 1 = .ok v → 2 ≤ retries →
      (api_get f retries).result = some v ∧ (api_get f retries).attempts = 2 ∧
        (api_get f retries).sleeps = [1]) := by
  refine ⟨fun f retries => api_get_go_attempts_le retries f retries 0,
    fun f retries v hf h1 => ?_, fun f retries v hf0 hf1 h2 => ?_⟩
  · obtain ⟨k, rfl⟩ : ∃ k, retries = k + 1 := ⟨retries - 1, by omega⟩
    simp [api_get, api_get_go, hf]
  · obtain ⟨k, rfl⟩ : ∃ k, retries = k + 2 := ⟨retries - 2, by omega⟩
    refine ⟨?_, ?_, ?_⟩ <;> simp [api_get, api_get_go, hf0, hf1]

/-- Claim C2, counterexample to the frozen wording: a GitHub API GET
whose first attempt is rate-limited is attempted a second time, after
a backoff sleep of one second, and the second response is returned
rather than a fallback. -/
theorem api_get_reattempts_counterexample :
    (api_get Fixtures.rateLimitedThenOk 3).attempts = 2 ∧
    (api_get Fixtures.rateLimitedThenOk 3).sleeps = [1] ∧
    (api_get Fixtures.rateLimitedThenOk 3).result.isSome = true ∧
    (2 : ℕ) ≠ 1 :=
  ⟨by decide, by decide, by decide, by decide⟩

/-- Claim C2, witness: the retry behavior applied to the rate-limited
then successful attempt trace with the default 3 retries. -/
theorem api_get_retry_witness :
    Fixtures.rateLimitedThenOk 0 = GitHubFetcher.ApiOutcome.rateLimited ∧
    Fixtures.rateLimitedThenOk 1 = GitHubFetcher.ApiOutcome.ok PyJson.JValue.null ∧
    (api_get Fixtures.rateLimitedThenOk 3).attempts ≤ 3 ∧
    (api_get Fixtures.rateLimitedThenOk 3).result = some PyJson.JValue.null ∧
    (api_get Fixtures.rateLimitedThenOk 3).sleeps = [1] :=
  ⟨rfl, rfl,
   api_get_retry_behavior.1 Fixtures.rateLimitedThenOk 3,
   (api_get_retry_behavior.2.2 Fixtures.rateLimitedThenOk 3 PyJson.JValue.null rfl rfl
      (by norm_num)).1,
   (api_get_retry_behavior.2.2 Fixtures.rateLimitedThenOk 3 PyJson.JValue.null rfl rfl
      (by norm_num)).2.2⟩

end ClaimC2

section ClaimC5

/-- Claim C5: whenever the wrapped external call raises, the wrapper
returns its hardcoded default: each of the four JSON-generation
subtasks of `BusinessResearcher` returns the empty dict, 
`google_search` returns its network-error fallback string, and
`extract_content_from_pdf` returns the failure banner with an empty
image list. -/
theorem exception_fallbacks_c5 :
    (∀ m : String, Agent.generate_basic_info (.exc m) = PyJson.JValue.obj []) ∧
    (∀ m : String, Agent.generate_external_intel (.exc m) = PyJson.JValue.obj []) ∧
    (∀ m : String, Agent.generate_valuation (.exc m) = PyJson.JValue.obj []) ∧
    (∀ m : String, Agent.generate_risks_and_qa (.exc m) = PyJson.JValue.obj []) ∧
    (∀ (m : String) (sid : ℕ),
      Utils.google_search (.requestExc m) sid = "网络搜索异常: " ++ m) ∧
    (∀ m : String,
      (Utils.extract_content_from_pdf (.exc m)).images = [] ∧
      (Utils.extract_content_from_pdf (.exc m)).text = "PDF 提取失败: " ++ m) :=
  ⟨fun _ => rfl, fun _ => rfl, fun _ => rfl, fun _ => rfl,
   fun _ _ => rfl, fun _ => ⟨rfl, rfl⟩⟩

end ClaimC5

section ClaimC6

theorem containsKey_mapSet (d : Agent.PyDict) (k : String) (v : PyJson.JValue)
    (h : Agent.containsKey d k = true) :
    Agent.containsKey (d.map (fun kv => if kv.1 == k then (k, v) else kv)) k = true := by
  induction d with
  | nil => simp [Agent.containsKey] at h
  | cons kv t ih =>
    simp only [Agent.containsKey, List.any_cons, Bool.or_eq_true] at h
    rcases h with h | h
    · have e : kv.1 = k := eq_of_beq h
      simp [List.map_cons, Agent.containsKey, e]
    · by_cases hkv : (kv.1 == k) = true
      · have e : kv.1 = k := eq_of_beq hkv
        simp [List.map_cons, Agent.containsKey, e]
      · simp only [List.map_cons, Agent.containsKey, List.any_cons, Bool.or_eq_true,
          if_neg hkv] at ih ⊢
        exact Or.inr (ih h)

theorem containsKey_map_mono (d : Agent.PyDict) (k : String) (v : PyJson.JValue)
    (k2 : String) (h : Agent.containsKey d k2 = true) :
    Agent.containsKey (d.map (fun kv => if kv.1 == k then (k, v) else kv)) k2 = true := by
  induction d with
  | nil => simp [Agent.containsKey] at h
  | cons kv t ih =>
    simp only [Agent.containsKey, List.any_cons, Bool.or_eq_true] at h
    rcases h with h | h
    · simp only [List.map_cons, Agent.containsKey, List.any_cons, Bool.or_eq_true]
      refine Or.inl ?_
      by_cases hkv : (kv.1 == k) = true
      · rw [if_pos hkv]
        have e : k = k2 := (eq_of_beq hkv).symm.trans (eq_of_beq h)
        simp [e]
      · rw [if_neg hkv]
        exact h
    · simp only [List.map_cons, Agent.containsKey, List.any_cons, Bool.or_eq_true]
      exact Or.inr (ih h)

theorem containsKey_dictSet_self (d : Agent.PyDict) (k : String) (v : PyJson.JValue) :
    Agent.containsKey (Agent.dictSet d k v) k = true := by
  simp only [Agent.dictSet]
  split_ifs with h
  · exact containsKey_mapSet d k v h
  · simp [Agent.containsKey, List.any_append]

theorem containsKey_dictSet_mono (d : Agent.PyDict) (k : String) (v : PyJson.JValue)
    (k2 : String) (h : Agent.containsKey d k2 = true) :
    Agent.containsKey (Agent.dictSet d k v) k2 = true := by
  simp only [Agent.dictSet]
  split_ifs with hk
  · exact containsKey_map_mono d k v k2 h
  · simp only [Agent.containsKey, List.any_append, Bool.or_eq_true]
    exact Or.inl h

theorem fill_fold_preserves (di : String) :
    ∀ (ks : List String) (d : Agent.PyDict) (k : String),
      Agent.containsKey d k = true →
      Agent.containsKey
        (ks.foldl (fun acc k2 =>
          if Agent.containsKey acc k2 then acc
          else Agent.dictSet acc k2 (Agent.defaultFor di k2)) d) k = true := by
  intro ks
  induction ks with
  | nil => intro d k h; simpa using h
  | cons k0 t ih =>
    intro d k h
    simp only [List.foldl_cons]
    apply ih
    by_cases h0 : Agent.containsKey d k0 = true
    · simpa [h0] using h
    · simp only [h0, Bool.false_eq_true, if_false]
      exact containsKey_dictSet_mono d k0 _ k h

theorem fill_fold_contains (di : String) :
    ∀ (ks : List String) (d : Agent.PyDict) (k : String), k ∈ ks →
      Agent.containsKey
        (ks.foldl (fun acc k2 =>
          if Agent.containsKey acc k2 then acc
          else Agent.dictSet acc k2 (Agent.defaultFor di k2)) d) k = true := by
  intro ks
  induction ks with
  | nil => intro d k h; simp at h
  | cons k0 t ih =>
    intro d k h
    simp only [List.foldl_cons]
    rcases List.mem_cons.mp h with rfl | hmem
    · apply fill_fold_preserves
      by_cases h0 : Agent.containsKey d k = true
      · rw [if_pos h0]
        exact h0
      · simp only [h0, Bool.false_eq_true, if_false]
        exact containsKey_dictSet_self d k _
    · exact ih _ k hmem

/-- Claim C6 (amended): whenever `analyze_bp_pipeline` reaches its
merge step (no pipeline exception and no early PDF-read-failure error
return), the returned dictionary contains all eleven required keys,
whatever the four subtask dictionaries contain.  (The frozen claim
omitted the early error return taken when the extracted text contains
the failure marker.) -/
theorem pipeline_fills_required_keys :
    ∀ (pdf : Utils.PdfResult) (di : String) (b i v r : Agent.PyDict),
      PyStr.strContains pdf.text "失败" = false →
      ∀ k ∈ Agent.requiredKeys,
        Agent.containsKey (Agent.analyze_bp_pipeline_body pdf di b i v r) k = true := by
  intro pdf di b i v r hnofail k hk
  simp only [Agent.analyze_bp_pipeline_body, hnofail, Bool.false_eq_true, if_false,
    Agent.fillRequired]
  exact fill_fold_contains di Agent.requiredKeys _ k hk

/-- Claim C6, counterexample to the frozen wording: when the PDF
extraction fails, the pipeline returns the early error dictionary,
which is not the pipeline-failure template and contains none of the
eleven required keys. -/
theorem pipeline_early_error_counterexample :
    Agent.containsKey (Agent.analyze_bp_pipeline_body
      (Utils.extract_content_from_pdf (.exc "missing file")) "全领域赛道" [] [] [] [])
      "error" = true ∧
    Agent.containsKey (Agent.analyze_bp_pipeline_body
      (Utils.extract_content_from_pdf (.exc "missing file")) "全领域赛道" [] [] [] [])
      "project_identity" = false ∧
    Agent.containsKey (Agent.analyze_bp_pipeline_body
      (Utils.extract_content_from_pdf (.exc "missing file")) "全领域赛道" [] [] [] [])
      "template" = false ∧
    (Agent.analyze_bp_pipeline_body
      (Utils.extract_content_from_pdf (.exc "missing file")) "全领域赛道" [] [] [] []).length = 1 :=
  ⟨by decide, by decide, by decide, by decide⟩

/-- Claim C6, witness: on a successfully extracted PDF and four empty
subtask results, the returned dictionary contains the valuation-model
key. -/
theorem pipeline_c6_witness :
    PyStr.strContains (Utils.extract_content_from_pdf (.ok "hello" [])).text "失败" = false ∧
    Agent.containsKey (Agent.analyze_bp_pipeline_body
      (Utils.extract_content_from_pdf (.ok "hello" [])) "X" [] [] [] [])
      "valuation_model" = true :=
  ⟨by decide,
   pipeline_fills_required_keys _ "X" [] [] [] [] (by decide) "valuation_model" (by decide)⟩

end ClaimC6

section ClaimC10

/-- Claim C10 (amended): every thread pool the program creates is
bounded, but not all to 4 or 5 workers: the search pool uses 5 workers
and the JSON-generation pool 4, while the PDF-image analysis pool in
`describe_visual_elements` uses 10. -/
theorem thread_pools_bounded :
    ∀ p ∈ Concurrency.threadPools,
      p.maxWorkers = 4 ∨ p.maxWorkers = 5 ∨
        (p.location = "utils.describe_visual_elements" ∧ p.maxWorkers = 10) := by
  intro p hp
  simp only [Concurrency.threadPools, List.mem_cons, List.not_mem_nil, or_false] at hp
  rcases hp with rfl | rfl | rfl <;> simp

/-- Claim C10, counterexample to the frozen wording: the pool worker
bounds are 10, 5 and 4, so not every pool is bounded to 4 or 5
workers. -/
theorem thread_pool_ten_workers_counterexample :
    (Concurrency.threadPools.map (fun p => p.maxWorkers)) = [10, 5, 4] ∧
    (Concurrency.threadPools.all
      (fun p => decide (4 ≤ p.maxWorkers) && decide (p.maxWorkers ≤ 5))) = false ∧
    ¬ ((10 : ℕ) ≤ 5) :=
  ⟨by decide, by decide, by decide⟩

/-- Claim C10, witness: the bound applied to the concurrent-search
pool. -/
theorem thread_pools_c10_witness :
    (⟨"agent.BusinessResearcher._concurrent_search", 5⟩ : Concurrency.PoolSite) ∈
      Concurrency.threadPools ∧
    ((⟨"agent.BusinessResearcher._concurrent_search", 5⟩ : Concurrency.PoolSite).maxWorkers = 4 ∨
      (⟨"agent.BusinessResearcher._concurrent_search", 5⟩ : Concurrency.PoolSite).maxWorkers = 5 ∨
      ((⟨"agent.BusinessResearcher._concurrent_search", 5⟩ : Concurrency.PoolSite).location =
          "utils.describe_visual_elements" ∧
        (⟨"agent.BusinessResearcher._concurrent_search", 5⟩ : Concurrency.PoolSite).maxWorkers = 10)) :=
  ⟨List.mem_cons_of_mem _ (List.mem_cons_self _ _),
   thread_pools_bounded _ (List.mem_cons_of_mem _ (List.mem_cons_self _ _))⟩

end ClaimC10
